import Mathlib

/-!
Verification of the codecrafters-kafka-rust broker against its
natural-language specification.

The development shallowly embeds the Rust source:

* `src/primitives.rs` — the wire codec (varints, compact strings,
  compact arrays, fixed-width big-endian integers, tag buffers);
* `src/api.rs` — the request/response structs and their encoders;
* `src/main.rs` — the per-API handlers (`handle_apiversions`,
  `handle_fetch`, `handle_describe_topic_partitions`), the dispatcher
  `handle_request` and the framing function `send`.

Rust machine integers are modelled as `Nat`/`Int` with explicit
`% 2^w` where wrap-around matters (the source is compiled in release
mode, where integer arithmetic wraps).  Byte readers are modelled as
functions from the remaining input (a `List Nat` of byte values) to an
`Except` result carrying the parsed value and the rest of the input.
Rust panics are modelled as `RErr.panicked` error results (or `none`
for the handler that can only fail by panicking).
-/

namespace Kafka

/-- A byte string: each element is one byte value. -/
abbrev Bytes := List Nat

/-- Failure modes of the embedded parsers: end of input (Rust
`read_exact` returning `UnexpectedEof`), an `io::ErrorKind::InvalidData`
error, or a Rust panic. -/
inductive RErr where
  | eof : RErr
  | invalidData : String → RErr
  | panicked : String → RErr
deriving DecidableEq, Repr

/-- Result of running a parser: the parsed value and the unconsumed
input, or an error. -/
abbrev PRes (α : Type) := Except RErr (α × Bytes)

/-! ## Varints (`src/primitives.rs`, `parse_unsigned_varlong` / `encode_varint`) -/

/-- The byte-collecting loop of `parse_unsigned_varlong`: push each
byte, stop on a byte with the high bit clear, and panic with
"Invalid varint" when the tenth byte read still has its high bit set.
Exhausting the reader without a terminator ends the loop normally
(the Rust `for b in buf.bytes()` loop just ends at EOF). -/
def varlongLoop : Bytes → Nat → Bytes → Except RErr (Bytes × Bytes)
  | [], _, bytes => .ok (bytes, [])
  | b :: rest, length, bytes =>
    if b &&& 0x80 = 0 then .ok (bytes ++ [b], rest)
    else if length + 1 = 10 then .error (.panicked "Invalid varint")
    else varlongLoop rest (length + 1) (bytes ++ [b])

/-- The accumulation phase of `parse_unsigned_varlong`: the collected
bytes are reversed and folded with `value = (value << 7) + (byte & 0x3f)`
in `u64` arithmetic.  Note the source masks with `0x3f` (six bits), not
`0x7f`. -/
def varlongValue (bytes : Bytes) : Nat :=
  bytes.reverse.foldl (fun value byte => ((value <<< 7) + (byte &&& 0x3f)) % 2 ^ 64) 0

/-- Embedding of `parse_unsigned_varlong` from `src/primitives.rs`. -/
def parse_unsigned_varlong (input : Bytes) : PRes Nat :=
  match varlongLoop input 0 [] with
  | .error e => .error e
  | .ok (bytes, rest) => .ok (varlongValue bytes, rest)

/-- The push loop of `encode_varint`: emit `varint & 0x3f` with the high
bit set and shift right by 7 until the value is zero.  A `u64` needs at
most ten 7-bit groups, so fuel 10 is never exhausted for inputs below
`2^64`. -/
def encodeVarintLoop : Nat → Nat → Bytes
  | _, 0 => []
  | 0, _ + 1 => []
  | fuel + 1, v + 1 =>
    (((v + 1) &&& 0x3f) ||| 0x80) :: encodeVarintLoop fuel ((v + 1) >>> 7)

/-- The final `buf[length - 1] &= 0x3f` step of `encode_varint`. -/
def clearMsbLast : Bytes → Bytes
  | [] => []
  | [b] => [b &&& 0x3f]
  | b :: rest => b :: clearMsbLast rest

/-- Embedding of `encode_varint` from `src/primitives.rs`. -/
def encode_varint (varint : Nat) : Bytes :=
  if varint = 0 then [0]
  else clearMsbLast (encodeVarintLoop 10 varint)

/-- Modelled from the spec: the decode semantics the specification
describes — "bytes are accumulated low-to-high in 7-bit groups", i.e.
the low seven bits of each byte, first byte least significant. -/
def specVarlongDecode : Bytes → Nat
  | [] => 0
  | b :: rest => (b &&& 0x7f) + 128 * specVarlongDecode rest

/-- Modelled from the spec: a well-formed varint byte string — every
byte but the last has its high bit set (continuation), the last has it
clear. -/
def isWfVarintBytes : Bytes → Bool
  | [] => false
  | [b] => b < 0x80
  | b :: rest => (0x80 ≤ b && b < 0x100) && isWfVarintBytes rest

/-- Modelled from the spec: a well-formed minimal varint encoding a
value in `0 … 2^32 - 1` — well-formed, no superfluous trailing zero
group, value in range. -/
def isWfMinimalVarint (bs : Bytes) : Bool :=
  isWfVarintBytes bs && (decide (bs.length ≤ 1) || bs.getLast? != some 0)
    && specVarlongDecode bs < 2 ^ 32

/-! ## Compact strings and arrays (`src/primitives.rs`) -/

/-- `Read::read_exact` on the remaining input: take `n` bytes or fail
with `UnexpectedEof`. -/
def readExact : Nat → Bytes → Option (Bytes × Bytes)
  | 0, input => some ([], input)
  | _ + 1, [] => none
  | n + 1, b :: rest =>
    match readExact n rest with
    | none => none
    | some (taken, remaining) => some (b :: taken, remaining)

/-- Modelled from the spec: `String::from_utf8` validation (the Rust
standard library, not part of `src/`) — UTF-8 well-formedness per
RFC 3629. -/
def utf8Cont (b : Nat) : Bool := 0x80 ≤ b && b ≤ 0xBF

/-- Modelled from the spec: UTF-8 validity of a byte string, used by
the embedding of `String::from_utf8` in `parse_compact_string`. -/
def isValidUtf8 : Bytes → Bool
  | [] => true
  | b :: rest =>
    if b ≤ 0x7F then isValidUtf8 rest
    else if 0xC2 ≤ b && b ≤ 0xDF then
      match rest with
      | c1 :: r => utf8Cont c1 && isValidUtf8 r
      | [] => false
    else if b = 0xE0 then
      match rest with
      | c1 :: c2 :: r => (0xA0 ≤ c1 && c1 ≤ 0xBF) && utf8Cont c2 && isValidUtf8 r
      | _ => false
    else if (0xE1 ≤ b && b ≤ 0xEC) || b = 0xEE || b = 0xEF then
      match rest with
      | c1 :: c2 :: r => utf8Cont c1 && utf8Cont c2 && isValidUtf8 r
      | _ => false
    else if b = 0xED then
      match rest with
      | c1 :: c2 :: r => (0x80 ≤ c1 && c1 ≤ 0x9F) && utf8Cont c2 && isValidUtf8 r
      | _ => false
    else if b = 0xF0 then
      match rest with
      | c1 :: c2 :: c3 :: r => (0x90 ≤ c1 && c1 ≤ 0xBF) && utf8Cont c2 && utf8Cont c3 && isValidUtf8 r
      | _ => false
    else if 0xF1 ≤ b && b ≤ 0xF3 then
      match rest with
      | c1 :: c2 :: c3 :: r => utf8Cont c1 && utf8Cont c2 && utf8Cont c3 && isValidUtf8 r
      | _ => false
    else if b = 0xF4 then
      match rest with
      | c1 :: c2 :: c3 :: r => (0x80 ≤ c1 && c1 ≤ 0x8F) && utf8Cont c2 && utf8Cont c3 && isValidUtf8 r
      | _ => false
    else false

/-- Embedding of `parse_compact_string`.  Rust strings are modelled as
their UTF-8 byte strings.  The source allocates `vec![0u8; length - 1]`;
for `length == 0` the `usize` subtraction wraps and the allocation of
`usize::MAX` bytes aborts with a capacity-overflow panic, modelled as a
`panicked` result. -/
def parse_compact_string (input : Bytes) : PRes Bytes :=
  match parse_unsigned_varlong input with
  | .error e => .error e
  | .ok (length, rest) =>
    if length = 0 then .error (.panicked "capacity overflow")
    else
      match readExact (length - 1) rest with
      | none => .error .eof
      | some (string, rest2) =>
        if isValidUtf8 string then .ok (string, rest2)
        else .error (.invalidData "invalid utf-8")

/-- Embedding of `encode_compact_string`.  The source computes the
length prefix as `buf.len() as u64 + 1` where `buf` is still empty at
that point, so the prefix is always `encode_varint 1`. -/
def encode_compact_string (string : Bytes) : Bytes :=
  let buf : Bytes := []
  let buf := buf ++ encode_varint (buf.length + 1)
  buf ++ string

/-- Big-endian bytes of `m % 2^(8*w)`, most significant first. -/
def natToBeBytes : Nat → Nat → Bytes
  | 0, _ => []
  | w + 1, m => natToBeBytes w (m / 256) ++ [m % 256]

/-- `i8::encode` (`vec![*self as u8]`). -/
def encode_int8 (n : Int) : Bytes := [((n % 2 ^ 8).toNat)]

/-- `i16::to_be_bytes`. -/
def encode_int16 (n : Int) : Bytes := natToBeBytes 2 ((n % 2 ^ 16).toNat)

/-- `i32::to_be_bytes`. -/
def encode_int32 (n : Int) : Bytes := natToBeBytes 4 ((n % 2 ^ 32).toNat)

/-- `i64::to_be_bytes`. -/
def encode_int64 (n : Int) : Bytes := natToBeBytes 8 ((n % 2 ^ 64).toNat)

/-- Embedding of `encode_bool`. -/
def encode_bool (value : Bool) : Bytes := [if value then 1 else 0]

/-- Embedding of `parse_int32`: four big-endian bytes, two's
complement. -/
def parse_int32 (input : Bytes) : PRes Int :=
  match input with
  | b0 :: b1 :: b2 :: b3 :: rest =>
    let m : Nat := (b0 % 256) * 2 ^ 24 + (b1 % 256) * 2 ^ 16 + (b2 % 256) * 2 ^ 8 + b3 % 256
    .ok (if m < 2 ^ 31 then (m : Int) else (m : Int) - 2 ^ 32, rest)
  | _ => .error .eof

/-- Embedding of `parse_tag_buffer`: read one byte, return an empty
vector. -/
def parse_tag_buffer (input : Bytes) : PRes Bytes :=
  match input with
  | _ :: rest => .ok ([], rest)
  | [] => .error .eof

/-- Embedding of `encode_tag_buffer`. -/
def encode_tag_buffer : Bytes := [0]

/-- Parse exactly `n` elements with the element parser `p`, in order
(the body of the `for _ in 0..length - 1` loop of
`parse_compact_array`). -/
def parseN {α : Type} (p : Bytes → PRes α) : Nat → Bytes → PRes (List α)
  | 0, input => .ok ([], input)
  | n + 1, input =>
    match p input with
    | .error e => .error e
    | .ok (item, rest) =>
      match parseN p n rest with
      | .error e => .error e
      | .ok (items, rest2) => .ok (item :: items, rest2)

/-- As `parseN`, but consuming a tag buffer after each element (the
loop body of `parse_compact_array_with_tag_buffer`). -/
def parseNWithTag {α : Type} (p : Bytes → PRes α) : Nat → Bytes → PRes (List α)
  | 0, input => .ok ([], input)
  | n + 1, input =>
    match p input with
    | .error e => .error e
    | .ok (item, rest) =>
      match parse_tag_buffer rest with
      | .error e => .error e
      | .ok (_, rest2) =>
        match parseNWithTag p n rest2 with
        | .error e => .error e
        | .ok (items, rest3) => .ok (item :: items, rest3)

/-- Embedding of `parse_compact_array`.  The element count is the `u64`
expression `length - 1`, which wraps to `2^64 - 1` when the decoded
length is `0` (release-mode Rust; a debug build panics on the
subtraction overflow instead). -/
def parse_compact_array {α : Type} (p : Bytes → PRes α) (input : Bytes) : PRes (List α) :=
  match parse_unsigned_varlong input with
  | .error e => .error e
  | .ok (length, rest) => parseN p ((length + (2 ^ 64 - 1)) % 2 ^ 64) rest

/-- Embedding of `parse_compact_array_with_tag_buffer`, with the same
wrapping `length - 1` element count. -/
def parse_compact_array_with_tag_buffer {α : Type} (p : Bytes → PRes α) (input : Bytes) :
    PRes (List α) :=
  match parse_unsigned_varlong input with
  | .error e => .error e
  | .ok (length, rest) => parseNWithTag p ((length + (2 ^ 64 - 1)) % 2 ^ 64) rest

/-- Embedding of `encode_compact_array`, generic over the element
encoder (the `Encoder` trait): empty arrays emit varint `0`, otherwise
varint `len + 1` followed by the encoded elements. -/
def encode_compact_array {α : Type} (enc : α → Bytes) (array : List α) : Bytes :=
  (if array.isEmpty then encode_varint 0 else encode_varint (array.length + 1))
    ++ (array.map enc).flatten

/-- Embedding of `encode_compact_nullable_string`: `None` emits a
single zero byte, `Some s` emits varint `s.len() + 1` then the bytes. -/
def encode_compact_nullable_string : Option Bytes → Bytes
  | some s => encode_varint (s.length + 1) ++ s
  | none => [0]

/-- Embedding of `encode_nullable_field`: `None` emits `(-1 as i8)`,
`Some f` emits `f`'s encoding. -/
def encode_nullable_field {α : Type} (enc : α → Bytes) : Option α → Bytes
  | some f => enc f
  | none => encode_int8 (-1)

/-! ## Wire data model (`src/api.rs`, `src/main.rs`, `src/metadata_log.rs`) -/

/-- `Uuid` from `src/primitives.rs`: 16 raw bytes. -/
structure Uuid where
  uuid : Bytes
deriving DecidableEq, Repr

/-- `Uuid::new()`: the all-zero UUID. -/
def Uuid.new : Uuid := ⟨List.replicate 16 0⟩

/-- `ErrorCode` from `src/api.rs`. -/
inductive ErrorCode where
  | NoError
  | UnknownTopicOrPartition
  | UnsupportedVersion
  | UnknownTopic
deriving DecidableEq, Repr

/-- The discriminant values of `ErrorCode` (`NoError = 0`,
`UnknownTopicOrPartition = 3`, `UnsupportedVersion = 35`,
`UnknownTopic = 100`). -/
def ErrorCode.code : ErrorCode → Int
  | .NoError => 0
  | .UnknownTopicOrPartition => 3
  | .UnsupportedVersion => 35
  | .UnknownTopic => 100

/-- `ErrorCode::encode`: the discriminant as big-endian `i16`. -/
def ErrorCode.encode (e : ErrorCode) : Bytes := encode_int16 e.code

/-- `ApiKey` from `src/main.rs`. -/
inductive ApiKey where
  | Fetch
  | ApiVersions
  | DescribeTopicPartitions
deriving DecidableEq, Repr

/-- The discriminant values of `ApiKey` (`Fetch = 1`,
`ApiVersions = 18`, `DescribeTopicPartitions = 75`). -/
def ApiKey.code : ApiKey → Int
  | .Fetch => 1
  | .ApiVersions => 18
  | .DescribeTopicPartitions => 75

/-- `RequestHeader` from `src/main.rs`. -/
structure RequestHeader where
  request_api_key : Int
  request_api_version : Int
  correlation_id : Int
  client_id : Bytes
deriving DecidableEq, Repr

/-- `ApiVersionsRequest` from `src/api.rs`. -/
structure ApiVersionsRequest where
  client_software_name : Bytes
  client_software_version : Bytes
deriving DecidableEq, Repr

/-- `FetchRequestPartition` from `src/api.rs`. -/
structure FetchRequestPartition where
  partition : Int
  current_leader_epoch : Int
  fetch_offset : Int
  last_fetched_epoch : Int
  log_start_offset : Int
  partition_max_bytes : Int
deriving DecidableEq, Repr

/-- `FetchRequestTopic` from `src/api.rs`. -/
structure FetchRequestTopic where
  topic_id : Uuid
  partitions : List FetchRequestPartition
deriving DecidableEq, Repr

/-- `ForgottenTopicsData` from `src/api.rs`. -/
structure ForgottenTopicsData where
  topic_id : Uuid
  partitions : List Int
deriving DecidableEq, Repr

/-- `FetchRequest` from `src/api.rs`. -/
structure FetchRequest where
  max_wait_ms : Int
  min_bytes : Int
  max_bytes : Int
  isolation_level : Int
  session_id : Int
  session_epoch : Int
  topics : List FetchRequestTopic
  forgotten_topics_data : List ForgottenTopicsData
  rack_id : Bytes
deriving DecidableEq, Repr

/-- `KCursor` from `src/api.rs`. -/
structure KCursor where
  topic_name : Bytes
  partition_index : Int
deriving DecidableEq, Repr

/-- `DescribeTopicPartitionsRequest` from `src/api.rs`. -/
structure DescribeTopicPartitionsRequest where
  topics : List Bytes
  response_partition_limit : Int
  cursor : Option KCursor
deriving DecidableEq, Repr

/-- `ApiKeys` (one advertised API key range) from `src/api.rs`. -/
structure ApiKeys where
  api_key : Int
  min_version : Int
  max_version : Int
deriving DecidableEq, Repr

/-- `ApiVersionsResponse` from `src/api.rs`. -/
structure ApiVersionsResponse where
  error_code : Int
  api_keys : List ApiKeys
  throttle_time_ms : Int
deriving DecidableEq, Repr

/-- `Partition` (DescribeTopicPartitions response entry) from
`src/api.rs`. -/
structure Partition where
  error_code : ErrorCode
  partition_index : Int
  leader_id : Int
  leader_epoch : Int
  replica_nodes : List Int
  isr_nodes : List Int
  eligible_leader_replicas : List Int
  last_known_elr : List Int
  offline_replicas : List Int
deriving DecidableEq, Repr

/-- `Topic` (DescribeTopicPartitions response entry) from
`src/api.rs`. -/
structure Topic where
  error_code : ErrorCode
  name : Option Bytes
  topic_id : Uuid
  is_internal : Bool
  partitions : List Partition
  topic_authorized_operations : Int
deriving DecidableEq, Repr

/-- `DescribeTopicPartitionsResponse` from `src/api.rs`. -/
structure DescribeTopicPartitionsResponse where
  throttle_time_ms : Int
  topics : List Topic
  next_cursor : Option KCursor
deriving DecidableEq, Repr

/-- `AbortedTransaction` from `src/api.rs` (no fields). -/
inductive AbortedTransaction where
  | mk
deriving DecidableEq, Repr

/-- `FetchResponsePartition` from `src/api.rs`. -/
structure FetchResponsePartition where
  partition_index : Int
  error_code : ErrorCode
  high_watermark : Int
  last_stable_offset : Int
  log_start_offset : Int
  aborted_transactions : List AbortedTransaction
  preferred_read_replica : Int
  records : Bytes
deriving DecidableEq, Repr

/-- `FetchResponseResponse` from `src/api.rs`. -/
structure FetchResponseResponse where
  topic_id : Uuid
  partitions : List FetchResponsePartition
deriving DecidableEq, Repr

/-- `FetchResponse` from `src/api.rs`. -/
structure FetchResponse where
  throttle_time_ms : Int
  error_code : ErrorCode
  session_id : Int
  responses : List FetchResponseResponse
deriving DecidableEq, Repr

/-- `TopicRecord` from `src/metadata_log.rs`. -/
structure TopicRecord where
  topic_name : Bytes
  topic_uuid : Uuid
deriving DecidableEq, Repr

/-- `PartitionRecord` from `src/metadata_log.rs`. -/
structure PartitionRecord where
  partition_id : Int
  topic_id : Uuid
  replicas : List Int
  isr : List Int
  removing_replicas : List Int
  adding_replicas : List Int
  leader : Int
  leader_epoch : Int
  partition_epoch : Int
  directories : List Uuid
deriving DecidableEq, Repr

/-- `FeatureLevelRecord` from `src/metadata_log.rs`. -/
structure FeatureLevelRecord where
  name : Bytes
  feature_level : Int
deriving DecidableEq, Repr

/-- `RecordBody` from `src/metadata_log.rs`: the typed bodies that
`ClusterMetadataLog::records()` yields, in file order. -/
inductive RecordBody where
  | Topic : TopicRecord → RecordBody
  | Partition : PartitionRecord → RecordBody
  | FeatureLevel : FeatureLevelRecord → RecordBody
deriving DecidableEq, Repr

/-- `RequestBody` from `src/main.rs`. -/
inductive RequestBody where
  | Fetch : FetchRequest → RequestBody
  | ApiVersions : ApiVersionsRequest → RequestBody
  | DescribeTopicPartitions : DescribeTopicPartitionsRequest → RequestBody

/-- `Request` from `src/main.rs`. -/
structure Request where
  header : RequestHeader
  body : RequestBody

/-- `ResponseHeader` from `src/main.rs`. -/
structure ResponseHeader where
  correlation_id : Int
  include_tag_buffer : Bool

/-- `ResponseBody` from `src/main.rs`. -/
inductive ResponseBody where
  | Fetch : FetchResponse → ResponseBody
  | ApiVersions : ApiVersionsResponse → ResponseBody
  | DescribeTopicPartitions : DescribeTopicPartitionsResponse → ResponseBody

/-- `Response` from `src/main.rs`. -/
structure Response where
  header : ResponseHeader
  body : ResponseBody

/-! ## Response encoders (`src/api.rs`) -/

/-- Modelled from the spec: the `Encoder` impl for `u8` used by the
Fetch response `records` field is not present in `src/`; per the spec
the records bytes are emitted verbatim, so a byte encodes as itself. -/
def encodeByte (b : Nat) : Bytes := [b % 256]

/-- `ApiKeys::encode`. -/
def ApiKeys.encode (k : ApiKeys) : Bytes :=
  encode_int16 k.api_key ++ encode_int16 k.min_version ++ encode_int16 k.max_version
    ++ encode_tag_buffer

/-- `ApiVersionsResponse::encode`. -/
def ApiVersionsResponse.encode (r : ApiVersionsResponse) : Bytes :=
  encode_int16 r.error_code ++ encode_compact_array ApiKeys.encode r.api_keys
    ++ encode_int32 r.throttle_time_ms ++ encode_tag_buffer

/-- `AbortedTransaction::encode` (empty). -/
def AbortedTransaction.encode (_ : AbortedTransaction) : Bytes := []

/-- `FetchResponsePartition::encode`. -/
def FetchResponsePartition.encode (p : FetchResponsePartition) : Bytes :=
  encode_int32 p.partition_index ++ p.error_code.encode ++ encode_int64 p.high_watermark
    ++ encode_int64 p.last_stable_offset ++ encode_int64 p.log_start_offset
    ++ encode_compact_array AbortedTransaction.encode p.aborted_transactions
    ++ encode_int32 p.preferred_read_replica
    ++ encode_compact_array encodeByte p.records
    ++ encode_tag_buffer

/-- `Uuid::encode`: the 16 raw bytes. -/
def Uuid.encode (u : Uuid) : Bytes := u.uuid

/-- `FetchResponseResponse::encode`. -/
def FetchResponseResponse.encode (r : FetchResponseResponse) : Bytes :=
  r.topic_id.encode ++ encode_compact_array FetchResponsePartition.encode r.partitions
    ++ encode_tag_buffer

/-- `FetchResponse::encode`. -/
def FetchResponse.encode (r : FetchResponse) : Bytes :=
  encode_int32 r.throttle_time_ms ++ r.error_code.encode ++ encode_int32 r.session_id
    ++ encode_compact_array FetchResponseResponse.encode r.responses ++ encode_tag_buffer

/-- `KCursor::encode` (note: uses the buggy `encode_compact_string`). -/
def KCursor.encode (c : KCursor) : Bytes :=
  encode_compact_string c.topic_name ++ encode_int32 c.partition_index

/-- `Partition::encode`. -/
def Partition.encode (p : Partition) : Bytes :=
  p.error_code.encode ++ encode_int32 p.partition_index ++ encode_int32 p.leader_id
    ++ encode_int32 p.leader_epoch
    ++ encode_compact_array encode_int32 p.replica_nodes
    ++ encode_compact_array encode_int32 p.isr_nodes
    ++ encode_compact_array encode_int32 p.eligible_leader_replicas
    ++ encode_compact_array encode_int32 p.last_known_elr
    ++ encode_compact_array encode_int32 p.offline_replicas
    ++ encode_tag_buffer

/-- `Topic::encode`. -/
def Topic.encode (t : Topic) : Bytes :=
  t.error_code.encode ++ encode_compact_nullable_string t.name ++ t.topic_id.encode
    ++ encode_bool t.is_internal ++ encode_compact_array Partition.encode t.partitions
    ++ encode_int32 t.topic_authorized_operations ++ encode_tag_buffer

/-- `DescribeTopicPartitionsResponse::encode`. -/
def DescribeTopicPartitionsResponse.encode (r : DescribeTopicPartitionsResponse) : Bytes :=
  encode_int32 r.throttle_time_ms ++ encode_compact_array Topic.encode r.topics
    ++ encode_nullable_field KCursor.encode r.next_cursor ++ encode_tag_buffer

/-- The body-encoding dispatch inside `send` in `src/main.rs`. -/
def ResponseBody.encode : ResponseBody → Bytes
  | .Fetch r => r.encode
  | .ApiVersions r => r.encode
  | .DescribeTopicPartitions r => r.encode

/-! ## Handlers (`src/main.rs`) -/

/-- Embedding of `handle_apiversions`. -/
def handle_apiversions (header : RequestHeader) (_body : ApiVersionsRequest) :
    ApiVersionsResponse :=
  let error_code :=
    if 0 ≤ header.request_api_version ∧ header.request_api_version ≤ 4 then
      ErrorCode.NoError
    else
      ErrorCode.UnsupportedVersion
  { error_code := error_code.code
    api_keys :=
      [ { api_key := ApiKey.Fetch.code, min_version := 0, max_version := 16 }
      , { api_key := ApiKey.ApiVersions.code, min_version := 0, max_version := 4 }
      , { api_key := ApiKey.DescribeTopicPartitions.code, min_version := 0, max_version := 0 } ]
    throttle_time_ms := 0 }

/-- Embedding of `handle_fetch`.  `message` stands for
`ClusterMetadataLog::message`, which is not part of `src/`; modelled
from the spec: it returns the bytes of the topic's partition-0 log
file, or `none` when the file is missing or unreadable. -/
def handle_fetch (_header : RequestHeader) (request : FetchRequest)
    (message : Uuid → Option Bytes) : FetchResponse :=
  match request.topics.head? with
  | some topic =>
    let message_data := message topic.topic_id
    let step : ErrorCode × Bytes :=
      match message_data with
      | some r => (ErrorCode.NoError, r)
      | none => (ErrorCode.UnknownTopic, [])
    { throttle_time_ms := 0
      error_code := ErrorCode.NoError
      session_id := 0
      responses :=
        [ { topic_id := topic.topic_id
            partitions :=
              [ { partition_index := 0
                  error_code := step.1
                  high_watermark := 0
                  last_stable_offset := 0
                  log_start_offset := 0
                  aborted_transactions := []
                  preferred_read_replica := 0
                  records := step.2 } ] } ] }
  | none =>
    { throttle_time_ms := 0, error_code := ErrorCode.NoError, session_id := 0, responses := [] }

/-- The `Partition` response entry built from a `PartitionRecord` in
the loop of `handle_describe_topic_partitions`. -/
def respPartitionOfRecord (p : PartitionRecord) : Partition :=
  { error_code := ErrorCode.NoError
    partition_index := p.partition_id
    leader_id := p.leader
    leader_epoch := p.leader_epoch
    replica_nodes := p.replicas
    isr_nodes := p.isr
    eligible_leader_replicas := []
    last_known_elr := []
    offline_replicas := [] }

/-- The `Topic` response entry built from a matching `TopicRecord` in
the loop of `handle_describe_topic_partitions`. -/
def respTopicOfRecord (t : TopicRecord) : Topic :=
  { error_code := ErrorCode.NoError
    name := some t.topic_name
    topic_id := t.topic_uuid
    is_internal := false
    partitions := []
    topic_authorized_operations := 0 }

/-- `topics.last_mut().unwrap().partitions.push(..)`: append a
partition to the last topic of a non-empty list. -/
def pushPartitionLast : List Topic → Partition → List Topic
  | [], _ => []
  | [t], p => [{ t with partitions := t.partitions ++ [p] }]
  | t :: rest, p => t :: pushPartitionLast rest p

/-- The record loop of `handle_describe_topic_partitions`, carrying the
two mutable variables `topics` and `topic_id`.  `none` models the
panic of `topics.last_mut().unwrap()` when a partition record matches
the current topic id while no topic has been appended yet. -/
def dtpLoop (reqTopics : List Bytes) :
    List RecordBody → List Topic → Uuid → Option (List Topic × Uuid)
  | [], topics, topic_id => some (topics, topic_id)
  | .Topic t :: records, topics, topic_id =>
    if t.topic_name ∈ reqTopics then
      dtpLoop reqTopics records (topics ++ [respTopicOfRecord t]) t.topic_uuid
    else
      dtpLoop reqTopics records topics topic_id
  | .Partition p :: records, topics, topic_id =>
    if p.topic_id = topic_id then
      match topics with
      | [] => none
      | _ :: _ => dtpLoop reqTopics records (pushPartitionLast topics (respPartitionOfRecord p)) topic_id
    else
      dtpLoop reqTopics records topics topic_id
  | .FeatureLevel _ :: records, topics, topic_id =>
    dtpLoop reqTopics records topics topic_id

/-- Embedding of `handle_describe_topic_partitions`.  The `records`
argument is the flat record-body list that
`ClusterMetadataLog::records()` yields.  `none` models a panic: either
`last_mut().unwrap()` inside the loop, or the out-of-bounds
`request.topics[0]` when building the fallback stub for an empty
request. -/
def handle_describe_topic_partitions (request : DescribeTopicPartitionsRequest)
    (records : List RecordBody) : Option DescribeTopicPartitionsResponse :=
  match dtpLoop request.topics records [] Uuid.new with
  | none => none
  | some (topics, _) =>
    if topics.length = 0 then
      match request.topics with
      | [] => none
      | name :: _ =>
        some { throttle_time_ms := 0
               topics :=
                 [ { error_code := ErrorCode.UnknownTopicOrPartition
                     name := some name
                     topic_id := Uuid.new
                     is_internal := false
                     partitions := []
                     topic_authorized_operations := 0 } ]
               next_cursor := none }
    else
      some { throttle_time_ms := 0, topics := topics, next_cursor := none }

/-! ## Reference DescribeTopicPartitions algorithm (from the spec) -/

/-- State of the spec's single pass: the response topics appended so
far and the single-element current-topic cursor (initially the zero
UUID, the id the stub topic also uses). -/
structure DtpSpecState where
  topics : List Topic
  currentTopicId : Uuid

/-- Modelled from the spec: one step of the reference single-pass
algorithm of §4.3.  On a `TopicRecord` whose name is requested, append
a `Topic` (error `NO_ERROR`, the record's name and uuid, not internal,
no partitions, authorized operations 0) and set the current topic id;
on a `PartitionRecord` whose `topic_id` equals the current topic id,
push a `Partition` entry onto the last appended `Topic` (undefined —
`none` — when none has been appended). -/
def dtpSpecStep (reqTopics : List Bytes) (s : DtpSpecState) : RecordBody → Option DtpSpecState
  | .Topic t =>
    if t.topic_name ∈ reqTopics then
      some ⟨s.topics ++ [respTopicOfRecord t], t.topic_uuid⟩
    else
      some s
  | .Partition p =>
    if p.topic_id = s.currentTopicId then
      match s.topics.getLast? with
      | none => none
      | some last =>
        some ⟨s.topics.dropLast
            ++ [{ last with partitions := last.partitions ++ [respPartitionOfRecord p] }],
          s.currentTopicId⟩
    else
      some s
  | .FeatureLevel _ => some s

/-- Modelled from the spec: the stub topic appended when the pass
matched nothing — error `UNKNOWN_TOPIC_OR_PARTITION`, the first
requested name, the zero UUID, empty partitions. -/
def dtpSpecStub (name : Bytes) : Topic :=
  { error_code := ErrorCode.UnknownTopicOrPartition
    name := some name
    topic_id := Uuid.new
    is_internal := false
    partitions := []
    topic_authorized_operations := 0 }

/-- Modelled from the spec: the reference DescribeTopicPartitions
response — a single pass of `dtpSpecStep` over `records()`, then the
stub topic when no topic was appended (undefined — `none` — when the
request names no topic at all). -/
def dtpSpecResponse (request : DescribeTopicPartitionsRequest) (records : List RecordBody) :
    Option DescribeTopicPartitionsResponse := do
  let s ← records.foldlM (dtpSpecStep request.topics) ⟨[], Uuid.new⟩
  if s.topics.isEmpty then
    match request.topics.head? with
    | none => none
    | some name => some { throttle_time_ms := 0, topics := [dtpSpecStub name], next_cursor := none }
  else
    some { throttle_time_ms := 0, topics := s.topics, next_cursor := none }

/-! ## Dispatcher and framing (`src/main.rs`) -/

/-- Embedding of `handle_request`: dispatch on the request body,
echoing the correlation id and setting `include_tag_buffer` to `false`
only for ApiVersions.  `none` propagates a handler panic. -/
def handle_request (request : Request) (message : Uuid → Option Bytes)
    (records : List RecordBody) : Option Response :=
  match request.body with
  | .Fetch body =>
    some { header := { correlation_id := request.header.correlation_id, include_tag_buffer := true }
           body := .Fetch (handle_fetch request.header body message) }
  | .ApiVersions body =>
    some { header := { correlation_id := request.header.correlation_id, include_tag_buffer := false }
           body := .ApiVersions (handle_apiversions request.header body) }
  | .DescribeTopicPartitions body =>
    match handle_describe_topic_partitions body records with
    | none => none
    | some resp =>
      some { header := { correlation_id := request.header.correlation_id, include_tag_buffer := true }
             body := .DescribeTopicPartitions resp }

/-- Embedding of `send`: the exact bytes written to the stream — the
message is the big-endian `i32` correlation id, the single tag-buffer
byte when `include_tag_buffer` is set, then the encoded body; it is
prefixed by its length as a big-endian `i32` (`msg.len() as i32`). -/
def send_bytes (response : Response) : Bytes :=
  let body := response.body.encode
  let msg := encode_int32 response.header.correlation_id
    ++ (if response.header.include_tag_buffer then encode_tag_buffer else [])
    ++ body
  encode_int32 (Int.ofNat msg.length) ++ msg

/-- The tag-buffer bytes the claimed framing rule expects after the
correlation id, by API: absent for ApiVersions, one zero byte for
Fetch and DescribeTopicPartitions. -/
def tagBytesFor : RequestBody → Bytes
  | .ApiVersions _ => []
  | .Fetch _ => [0]
  | .DescribeTopicPartitions _ => [0]

/-! ## Theorems -/

/-- Claim C2: unsigned varint/varlong decode is claimed to accumulate
the low 7 bits of each byte, low-to-high.  The three listed examples do
hold, but the source masks each byte with `0x3f` (six bits) instead of
`0x7f`, so a byte with bit 6 set decodes wrongly: `[0x40]` decodes to
`0` where the claimed 7-bit accumulation gives `64`. -/
theorem c2_varlong_low7_bug :
    parse_unsigned_varlong [0x0A] = .ok (10, []) ∧
    parse_unsigned_varlong [0x96, 0x01] = .ok (150, []) ∧
    parse_unsigned_varlong [0x80, 0x80, 0x01] = .ok (16384, []) ∧
    specVarlongDecode [0x40] = 64 ∧
    parse_unsigned_varlong [0x40] = .ok (0, []) :=
  ⟨rfl, rfl, rfl, rfl, rfl⟩

/-- Claim C3: `encode_varint (parse_unsigned_varlong bytes)` is claimed
to reproduce every well-formed minimal varint for values up to
`2^32 - 1`.  The byte string `[0x40]` is the minimal varint of `64`,
yet the decoder returns `0` (the `0x3f` mask drops bit 6) and
re-encoding yields `[0x00] ≠ [0x40]`. -/
theorem c3_varint_roundtrip_bug :
    isWfMinimalVarint [0x40] = true ∧
    parse_unsigned_varlong [0x40] = .ok (0, []) ∧
    encode_varint 0 = [0x00] ∧
    ([0x00] : Bytes) ≠ [0x40] :=
  ⟨rfl, rfl, rfl, by decide⟩

/-- Claim C4: decoding the compact-string encoding of `x` is claimed to
yield `x` again.  In fact `encode_compact_string` computes its length
prefix from the still-empty output buffer, so it always writes varint
`1`; decoding therefore reads zero content bytes and returns the empty
string for every input, leaving the actual content unconsumed. -/
theorem c4_compact_string_roundtrip_bug (s : Bytes) :
    parse_compact_string (encode_compact_string s) = .ok ([], s) := rfl

/-- Claim C5: a compact-array length varint of `0` is claimed to decode
to the empty array.  The source computes the `u64` element count
`length - 1` without a zero guard, so a length of `0` wraps to
`2^64 - 1` (release mode; a debug build panics on the subtraction) and
the decode fails with an end-of-input error instead of succeeding with
`[]`.  Lengths `L ≥ 1` do parse exactly `L - 1` elements in order. -/
theorem c5_compact_array_zero_bug :
    parse_compact_array parse_int32 [0x00] = .error .eof ∧
    parse_compact_array_with_tag_buffer parse_int32 [0x00] = .error .eof ∧
    parse_compact_array parse_int32 [0x03, 0, 0, 0, 1, 0, 0, 0, 2] = .ok ([1, 2], []) ∧
    parse_compact_array_with_tag_buffer parse_int32 [0x03, 0, 0, 0, 1, 9, 0, 0, 0, 2, 9]
      = .ok ([1, 2], []) :=
  ⟨rfl, rfl, rfl, rfl⟩

/-- Claim C6 (counterexample): the decoder is claimed to accept up to
10 continuation bytes and only fail when an 11th byte continues.  A
sequence of exactly 10 continuation bytes followed by a terminator is
rejected — with a panic, not an `InvalidData` error — so the claim
fails at this input. -/
theorem c6_ten_continuations_rejected :
    parse_unsigned_varlong
        [0x80, 0x80, 0x80, 0x80, 0x80, 0x80, 0x80, 0x80, 0x80, 0x80, 0x00]
      = .error (.panicked "Invalid varint") := rfl

/-- The varlong loop panics as soon as the tenth byte read still has
its high bit set. -/
lemma varlongLoop_panics :
    ∀ (pre : Bytes) (len : Nat) (acc : Bytes) (rest : Bytes),
    pre.length + len = 10 → len ≤ 9 → (∀ x ∈ pre, x &&& 0x80 ≠ 0) →
    varlongLoop (pre ++ rest) len acc = .error (.panicked "Invalid varint") := by
  intro pre
  induction pre with
  | nil =>
    intro len acc rest hsum hlen _
    simp at hsum
    omega
  | cons b pre ih =>
    intro len acc rest hsum hlen hall
    have hb : ¬(b &&& 0x80 = 0) := hall b (by simp)
    simp only [List.cons_append, varlongLoop, if_neg hb]
    by_cases h10 : len + 1 = 10
    · rw [if_pos h10]
    · rw [if_neg h10]
      exact ih (len + 1) (acc ++ [b]) rest
        (by simp at hsum; omega) (by omega) (fun x hx => hall x (by simp [hx]))

/-- The varlong loop accepts at most nine continuation bytes followed
by a terminating byte, collecting exactly those bytes. -/
lemma varlongLoop_accepts :
    ∀ (pre : Bytes) (len : Nat) (acc : Bytes) (b : Nat) (rest : Bytes),
    pre.length + len ≤ 9 → (∀ x ∈ pre, x &&& 0x80 ≠ 0) → b &&& 0x80 = 0 →
    varlongLoop (pre ++ b :: rest) len acc = .ok (acc ++ pre ++ [b], rest) := by
  intro pre
  induction pre with
  | nil =>
    intro len acc b rest _ _ hb
    simp [varlongLoop, hb]
  | cons x pre ih =>
    intro len acc b rest hsum hall hb
    have hx : ¬(x &&& 0x80 = 0) := hall x (by simp)
    have h10 : ¬(len + 1 = 10) := by simp at hsum; omega
    simp only [List.cons_append, varlongLoop, if_neg hx, if_neg h10, List.append_eq]
    rw [ih (len + 1) (acc ++ [x]) b rest
      (by simp at hsum ⊢; omega) (fun y hy => hall y (by simp [hy])) hb]
    simp

/-- Claim C6 (amended): `parse_unsigned_varlong` reads at most ten
bytes.  Any input whose first ten bytes all have the high bit set is
rejected by the panic "Invalid varint" (an eleventh byte is never
examined), and any input starting with at most nine continuation bytes
followed by a byte with the high bit clear is accepted. -/
theorem c6_varlong_boundary :
    (∀ (pre rest : Bytes), pre.length = 10 → (∀ x ∈ pre, x &&& 0x80 ≠ 0) →
      parse_unsigned_varlong (pre ++ rest) = .error (.panicked "Invalid varint")) ∧
    (∀ (pre : Bytes) (b : Nat) (rest : Bytes), pre.length ≤ 9 →
      (∀ x ∈ pre, x &&& 0x80 ≠ 0) → b &&& 0x80 = 0 →
      parse_unsigned_varlong (pre ++ b :: rest) = .ok (varlongValue (pre ++ [b]), rest)) := by
  constructor
  · intro pre rest hlen hall
    unfold parse_unsigned_varlong
    rw [varlongLoop_panics pre 0 [] rest (by omega) (by omega) hall]
  · intro pre b rest hlen hall hb
    unfold parse_unsigned_varlong
    rw [varlongLoop_accepts pre 0 [] b rest (by omega) hall hb]
    simp

/-- Witness for `c6_varlong_boundary` at concrete inputs: ten `0x80`
bytes are rejected; a single continuation byte followed by `0x01` is
accepted. -/
theorem c6_varlong_boundary_witness :
    parse_unsigned_varlong (List.replicate 10 0x80 ++ ([] : Bytes))
        = .error (.panicked "Invalid varint") ∧
    parse_unsigned_varlong ([0x81] ++ 0x01 :: ([] : Bytes))
        = .ok (varlongValue ([0x81] ++ [0x01]), []) :=
  ⟨c6_varlong_boundary.1 (List.replicate 10 0x80) [] (by decide) (by decide),
   c6_varlong_boundary.2 [0x81] 0x01 [] (by decide) (by decide) (by decide)⟩

/-- Claim C7: the ApiVersions handler returns `NO_ERROR` exactly for
header versions in `[0, 4]` and `UNSUPPORTED_VERSION` (35) otherwise,
always advertising Fetch (0–16), ApiVersions (0–4) and
DescribeTopicPartitions (0–0) with zero throttle time. -/
theorem c7_apiversions_handler (header : RequestHeader) (body : ApiVersionsRequest) :
    handle_apiversions header body =
      { error_code :=
          if 0 ≤ header.request_api_version ∧ header.request_api_version ≤ 4 then 0 else 35
        api_keys :=
          [ { api_key := 1, min_version := 0, max_version := 16 }
          , { api_key := 18, min_version := 0, max_version := 4 }
          , { api_key := 75, min_version := 0, max_version := 0 } ]
        throttle_time_ms := 0 } := by
  unfold handle_apiversions
  by_cases h : 0 ≤ header.request_api_version ∧ header.request_api_version ≤ 4 <;>
    simp [h, ErrorCode.code, ApiKey.code]

/-- Claim C9: the Fetch handler's top-level error code is `NO_ERROR`
for every request and every metadata lookup outcome — including when
the per-partition error is `UNKNOWN_TOPIC` and when the request lists
no topics. -/
theorem c9_fetch_top_level_no_error (header : RequestHeader) (request : FetchRequest)
    (message : Uuid → Option Bytes) :
    (handle_fetch header request message).error_code = ErrorCode.NoError := by
  cases h : request.topics.head? <;> simp [handle_fetch, h]

/-- With an empty request topic list, the record loop appends no topic
and either panics on a matching partition record or finishes with an
empty topic list and the initial topic id. -/
lemma dtpLoop_empty_request :
    ∀ (records : List RecordBody) (tid : Uuid),
    dtpLoop [] records [] tid = none ∨ dtpLoop [] records [] tid = some ([], tid) := by
  intro records
  induction records with
  | nil => intro tid; right; rfl
  | cons r rs ih =>
    intro tid
    cases r with
    | Topic t => simpa [dtpLoop] using ih tid
    | Partition p =>
      by_cases h : p.topic_id = tid
      · left; simp [dtpLoop, h]
      · simpa [dtpLoop, h] using ih tid
    | FeatureLevel f => simpa [dtpLoop] using ih tid

/-- Claim C10: when the DescribeTopicPartitions request names no topic,
the handler never produces a response: building the fallback stub
indexes `request.topics[0]` out of bounds (and a partition record
matching the zero UUID makes `last_mut().unwrap()` panic even
earlier).  The modelled handler returns `none` for every metadata
log. -/
theorem c10_empty_request_panics (limit : Int) (cursor : Option KCursor)
    (records : List RecordBody) :
    handle_describe_topic_partitions ⟨[], limit, cursor⟩ records = none := by
  unfold handle_describe_topic_partitions
  rcases dtpLoop_empty_request records Uuid.new with h | h <;> simp [h]

/-- Appending to the last element of a non-empty topic list equals
dropping the last element and re-appending its updated copy. -/
lemma pushPartitionLast_eq_dropLast :
    ∀ (ts : List Topic) (last : Topic) (p : Partition),
    ts.getLast? = some last →
    pushPartitionLast ts p
      = ts.dropLast ++ [{ last with partitions := last.partitions ++ [p] }] := by
  intro ts
  induction ts with
  | nil => intro last p h; simp at h
  | cons t rest ih =>
    intro last p h
    cases rest with
    | nil =>
      simp only [List.getLast?_singleton, Option.some.injEq] at h
      subst h
      rfl
    | cons t2 rest2 =>
      have h2 : (t2 :: rest2).getLast? = some last := by
        rwa [List.getLast?_cons_cons] at h
      have : pushPartitionLast (t :: t2 :: rest2) p = t :: pushPartitionLast (t2 :: rest2) p := rfl
      rw [this, ih last p h2]
      rfl

/-- The handler's record loop computes exactly the spec's single pass:
the loop state `(topics, topic_id)` tracks the spec state, and both
fail in the same situations. -/
lemma dtpLoop_eq_spec (reqTopics : List Bytes) :
    ∀ (records : List RecordBody) (topics : List Topic) (tid : Uuid),
    dtpLoop reqTopics records topics tid =
      (records.foldlM (dtpSpecStep reqTopics) ⟨topics, tid⟩).map
        (fun s => (s.topics, s.currentTopicId)) := by
  intro records
  induction records with
  | nil => intro topics tid; rfl
  | cons r rs ih =>
    intro topics tid
    cases r with
    | Topic t =>
      by_cases h : t.topic_name ∈ reqTopics <;>
        simp [dtpLoop, dtpSpecStep, h, List.foldlM_cons, ih]
    | Partition p =>
      by_cases h : p.topic_id = tid
      · cases topics with
        | nil => simp [dtpLoop, dtpSpecStep, h, List.foldlM_cons]
        | cons t1 ts1 =>
          cases hL : (t1 :: ts1).getLast? with
          | none => simp at hL
          | some last =>
            simp [dtpLoop, dtpSpecStep, h, hL, List.foldlM_cons, ih,
              pushPartitionLast_eq_dropLast _ _ (respPartitionOfRecord p) hL]
      · simp [dtpLoop, dtpSpecStep, h, List.foldlM_cons, ih]
    | FeatureLevel f => simp [dtpLoop, dtpSpecStep, List.foldlM_cons, ih]

/-- Claim C1: for every request and metadata log, the
DescribeTopicPartitions handler's response equals the spec's
single-pass reference algorithm over `records()` — matching topic
records append response topics and move the current-topic cursor,
matching partition records extend the last appended topic, and an
empty result is replaced by the unknown-topic stub for the first
requested name. -/
theorem c1_dtp_matches_spec (request : DescribeTopicPartitionsRequest)
    (records : List RecordBody) :
    handle_describe_topic_partitions request records = dtpSpecResponse request records := by
  unfold handle_describe_topic_partitions dtpSpecResponse
  rw [dtpLoop_eq_spec]
  cases hf : records.foldlM (dtpSpecStep request.topics) ⟨[], Uuid.new⟩ with
  | none => simp
  | some s =>
    cases hst : s.topics with
    | nil =>
      cases hreq : request.topics with
      | nil => simp [hst, hreq]
      | cons n ns => simp [hst, hreq, dtpSpecStub]
    | cons t ts => simp [hst]

/-- Claim C8: every frame the server writes is
`(len P as big-endian i32) ++ P`, where the payload `P` is the
big-endian `i32` correlation id, then the single empty-tag-buffer byte
for Fetch and DescribeTopicPartitions responses but not for
ApiVersions responses, then the encoded response body. -/
theorem c8_framing (request : Request) (message : Uuid → Option Bytes)
    (records : List RecordBody) (response : Response)
    (h : handle_request request message records = some response) :
    send_bytes response =
      encode_int32 (Int.ofNat (encode_int32 request.header.correlation_id
          ++ tagBytesFor request.body ++ response.body.encode).length)
        ++ (encode_int32 request.header.correlation_id
          ++ tagBytesFor request.body ++ response.body.encode) := by
  cases hb : request.body with
  | Fetch body =>
    unfold handle_request at h
    rw [hb] at h
    simp only [Option.some.injEq] at h
    subst h
    rfl
  | ApiVersions body =>
    unfold handle_request at h
    rw [hb] at h
    simp only [Option.some.injEq] at h
    subst h
    rfl
  | DescribeTopicPartitions body =>
    unfold handle_request at h
    rw [hb] at h
    have h2 : (match handle_describe_topic_partitions body records with
        | none => none
        | some resp =>
          some { header := { correlation_id := request.header.correlation_id
                             include_tag_buffer := true }
                 body := ResponseBody.DescribeTopicPartitions resp }) = some response := h
    cases hd : handle_describe_topic_partitions body records with
    | none => rw [hd] at h2; exact absurd h2 (by simp)
    | some resp =>
      rw [hd] at h2
      simp only [Option.some.injEq] at h2
      subst h2
      rfl

/-- Witness for `c8_framing`: a concrete ApiVersions v4 request with
correlation id 7 is framed as claimed. -/
theorem c8_framing_witness :
    send_bytes
        { header := { correlation_id := 7, include_tag_buffer := false }
          body := .ApiVersions (handle_apiversions ⟨18, 4, 7, []⟩ ⟨[], []⟩) } =
      encode_int32 (Int.ofNat (encode_int32 7
          ++ tagBytesFor (.ApiVersions ⟨[], []⟩)
          ++ (ResponseBody.ApiVersions (handle_apiversions ⟨18, 4, 7, []⟩ ⟨[], []⟩)).encode).length)
        ++ (encode_int32 7 ++ tagBytesFor (.ApiVersions ⟨[], []⟩)
          ++ (ResponseBody.ApiVersions (handle_apiversions ⟨18, 4, 7, []⟩ ⟨[], []⟩)).encode) :=
  c8_framing ⟨⟨18, 4, 7, []⟩, .ApiVersions ⟨[], []⟩⟩ (fun _ => none) []
    { header := { correlation_id := 7, include_tag_buffer := false }
      body := .ApiVersions (handle_apiversions ⟨18, 4, 7, []⟩ ⟨[], []⟩) } rfl

end Kafka
